import Mathlib

/-!
Verification of the SilvaEngine hybrid cache subsystem
(`silvaengine_utility/cache/{hybrid_cache,object_cache,decorators}.py`).

The Python code is shallowly embedded: engine instances become an explicit
state structure, the filesystem and the remote (Redis) store become
association lists, wall-clock time becomes an explicit `Int` parameter, and
the question whether the remote store raises on a given call becomes an
explicit `failing : Bool` parameter (true models a remote tier on which
every call raises an exception, false a healthy remote tier).  The
filesystem itself is treated as reliable: disk read/write faults other than
malformed records are not modelled, and corrupt pickle data on disk is
modelled by the record constructor `DiskFile.malformed`.
-/

set_option maxRecDepth 10000

/-- Python values as stored in the caches.  `PyVal.none` models Python's
`None`; dicts are association lists in insertion order (as in Python 3.7+);
tuples and lists are both modelled by `PyVal.list`. -/
inductive PyVal where
  | none : PyVal
  | bool : Bool → PyVal
  | int : Int → PyVal
  | str : String → PyVal
  | list : List PyVal → PyVal
  | dict : List (String × PyVal) → PyVal


/-- Python truthiness (`bool(v)`) for the modelled values. -/
def pyTruthy : PyVal → Bool
  | .none => false
  | .bool b => b
  | .int n => n ≠ 0
  | .str s => ¬ s.isEmpty
  | .list items => ¬ items.isEmpty
  | .dict es => ¬ es.isEmpty

/-- `v` is Python's `None` (used for `is None` / `is not None` checks). -/
def PyVal.isNone : PyVal → Bool
  | .none => true
  | _ => false

namespace Assoc

variable {κ : Type} [DecidableEq κ] {α : Type}

/-- First-match lookup in an association list (Python dicts never hold
duplicate keys, so first-match agrees with dict lookup). -/
def find (k : κ) : List (κ × α) → Option α
  | [] => Option.none
  | (k', v) :: es => if k' = k then some v else find k es

/-- Remove every binding of `k`. -/
def erase (k : κ) (m : List (κ × α)) : List (κ × α) :=
  m.filter fun p => p.1 ≠ k

/-- Update/insert a binding (`d[k] = v`). -/
def insert (k : κ) (v : α) (m : List (κ × α)) : List (κ × α) :=
  (k, v) :: erase k m

@[simp] theorem find_nil (k : κ) : find k ([] : List (κ × α)) = Option.none := rfl

@[simp] theorem find_cons (k k' : κ) (v : α) (es : List (κ × α)) :
    find k ((k', v) :: es) = if k' = k then some v else find k es := rfl

@[simp] theorem find_insert_self (k : κ) (v : α) (m : List (κ × α)) :
    find k (insert k v m) = some v := by
  simp [insert, find]

theorem find_erase (k k' : κ) (m : List (κ × α)) :
    find k (erase k' m) = if k' = k then Option.none else find k m := by
  induction m with
  | nil => simp [erase]
  | cons p es ih =>
    obtain ⟨a, b⟩ := p
    by_cases hak : a = k' <;> by_cases hk : k' = k <;> by_cases hak2 : a = k <;>
      simp_all [erase, find, List.filter]

theorem find_insert_ne (k k' : κ) (h : k' ≠ k) (v : α) (m : List (κ × α)) :
    find k (insert k' v m) = find k m := by
  simp [insert, find, h, find_erase]

@[simp] theorem find_erase_self (k : κ) (m : List (κ × α)) :
    find k (erase k m) = Option.none := by
  simp [find_erase]

theorem erase_of_not_mem (k : κ) (m : List (κ × α))
    (h : find k m = Option.none) : erase k m = m := by
  induction m with
  | nil => rfl
  | cons p es ih =>
    obtain ⟨a, b⟩ := p
    by_cases hak : a = k
    · subst hak; simp [find] at h
    · simp [find, hak] at h
      simp [erase, List.filter, hak] at ih ⊢
      exact ih h

/-- Looking up in a list filtered by a key predicate: if the key is kept the
first match survives, otherwise it is gone. -/
theorem find_filter (p : κ → Bool) (k : κ) (m : List (κ × α)) :
    find k (m.filter fun q => p q.1) = if p k then find k m else Option.none := by
  induction m with
  | nil => simp
  | cons q es ih =>
    obtain ⟨a, b⟩ := q
    by_cases hak : a = k
    · subst hak
      by_cases hp : p a <;> simp [List.filter, hp, find, ih]
    · by_cases hp : p a <;> simp [List.filter, hp, find, hak, ih]

end Assoc

/-! ### Canonical JSON encoding (`json.dumps(key_data, sort_keys=True)`) -/

/-- Lexicographic (code-point) comparison of character lists, as Python
compares strings. -/
def charListLt : List Char → List Char → Bool
  | _, [] => false
  | [], _ :: _ => true
  | a :: as, b :: bs => a.toNat < b.toNat || (a == b && charListLt as bs)

/-- Python's `<` on strings (code-point lexicographic order). -/
def strLt (a b : String) : Bool := charListLt a.data b.data

/-- Insert an entry into a key-sorted list, after all entries whose key is
not greater (stable, as Python's sort is). -/
def insertByKey {α : Type} (p : String × α) :
    List (String × α) → List (String × α)
  | [] => [p]
  | q :: qs => if strLt p.1 q.1 then p :: q :: qs else q :: insertByKey p qs

/-- Stable sort by key (`sort_keys=True`). -/
def sortByKey {α : Type} (es : List (String × α)) : List (String × α) :=
  es.foldl (fun acc p => insertByKey p acc) []

/-- JSON escaping of one character.  Only the mandatory `"` and backslash
escapes are modelled; the inputs in scope are printable ASCII, for which
`json.dumps` emits no other escapes. -/
def jsonEscapeChar (c : Char) : String :=
  if c = '"' then "\\\"" else if c = '\\' then "\\\\" else String.singleton c

/-- A JSON string literal. -/
def jsonQuote (s : String) : String :=
  "\"" ++ String.join (s.data.map jsonEscapeChar) ++ "\""

mutual
/-- `json.dumps(v, sort_keys=True)` with the default separators
`(", ", ": ")`.  Each dict's rendered `"key": value` pieces are
stable-sorted by key after rendering, which yields the same text as
`json.dumps`'s sorting of the items before rendering, because rendering
keeps each entry's key and the sort compares only keys. -/
def dumps : PyVal → String
  | .none => "null"
  | .bool b => if b then "true" else "false"
  | .int n => toString n
  | .str s => jsonQuote s
  | .list items => "[" ++ String.intercalate ", " (dumpsList items) ++ "]"
  | .dict es =>
      "\x7b" ++ String.intercalate ", "
        ((sortByKey (dumpsEntries es)).map Prod.snd) ++ "\x7d"

/-- The rendered elements of a JSON array. -/
def dumpsList : List PyVal → List String
  | [] => []
  | v :: vs => dumps v :: dumpsList vs

/-- Each dict entry rendered as `(key, "key": value)`. -/
def dumpsEntries : List (String × PyVal) → List (String × String)
  | [] => []
  | (k, v) :: es => (k, jsonQuote k ++ ": " ++ dumps v) :: dumpsEntries es
end

/-! ### SHA-256 (`hashlib.sha256(key_str.encode()).hexdigest()[:16]`)

Executable FIPS 180-4 SHA-256 over byte lists, with 32-bit words as `Nat`
reduced modulo `2 ^ 32`. -/

/-- UTF-8 encoding of one code point (`str.encode()`). -/
def utf8Char (c : Char) : List Nat :=
  let n := c.toNat
  if n < 0x80 then [n]
  else if n < 0x800 then [0xC0 + n / 64, 0x80 + n % 64]
  else if n < 0x10000 then
    [0xE0 + n / 4096, 0x80 + (n / 64) % 64, 0x80 + n % 64]
  else
    [0xF0 + n / 262144, 0x80 + (n / 4096) % 64, 0x80 + (n / 64) % 64, 0x80 + n % 64]

/-- UTF-8 bytes of a string. -/
def utf8Bytes (s : String) : List Nat := s.data.flatMap utf8Char

/-- Right rotation of a 32-bit word. -/
def rotr32 (x n : Nat) : Nat := (x >>> n) ||| ((x <<< (32 - n)) % 4294967296)

/-- The eight working registers of the SHA-256 compression function. -/
structure Sha2State where
  a : Nat
  b : Nat
  c : Nat
  d : Nat
  e : Nat
  f : Nat
  g : Nat
  h : Nat

/-- SHA-256 initial hash value (FIPS 180-4, in decimal). -/
def sha2Init : Sha2State :=
  ⟨1779033703, 3144134277, 1013904242, 2773480762,
   1359893119, 2600822924, 528734635, 1541459225⟩

/-- SHA-256 round constants (FIPS 180-4, in decimal). -/
def sha2K : List Nat :=
  [1116352408, 1899447441, 3049323471, 3921009573, 961987163,
   1508970993, 2453635748, 2870763221, 3624381080, 310598401,
   607225278, 1426881987, 1925078388, 2162078206, 2614888103,
   3248222580, 3835390401, 4022224774, 264347078, 604807628,
   770255983, 1249150122, 1555081692, 1996064986, 2554220882,
   2821834349, 2952996808, 3210313671, 3336571891, 3584528711,
   113926993, 338241895, 666307205, 773529912, 1294757372,
   1396182291, 1695183700, 1986661051, 2177026350, 2456956037,
   2730485921, 2820302411, 3259730800, 3345764771, 3516065817,
   3600352804, 4094571909, 275423344, 430227734, 506948616,
   659060556, 883997877, 958139571, 1322822218, 1537002063,
   1747873779, 1955562222, 2024104815, 2227730452, 2361852424,
   2428436474, 2756734187, 3204031479, 3329325298]

/-- Message padding: append `0x80`, zeros, then the 64-bit big-endian bit
length, to a multiple of 64 bytes. -/
def sha2Pad (msg : List Nat) : List Nat :=
  let len := msg.length
  let zeros := (119 - len % 64) % 64
  let bitLen := 8 * len
  msg ++ 0x80 :: List.replicate zeros 0 ++
    [(bitLen >>> 56) % 256, (bitLen >>> 48) % 256, (bitLen >>> 40) % 256,
     (bitLen >>> 32) % 256, (bitLen >>> 24) % 256, (bitLen >>> 16) % 256,
     (bitLen >>> 8) % 256, bitLen % 256]

/-- Big-endian 32-bit words from bytes. -/
def bytesToWords : List Nat → List Nat
  | b0 :: b1 :: b2 :: b3 :: rest =>
      (b0 * 16777216 + b1 * 65536 + b2 * 256 + b3) :: bytesToWords rest
  | _ => []

/-- Split the padded message into 64-byte chunks (`fuel` bounds recursion and
is taken at least the number of chunks). -/
def sha2Chunks : Nat → List Nat → List (List Nat)
  | 0, _ => []
  | _ + 1, [] => []
  | fuel + 1, l => l.take 64 :: sha2Chunks fuel (l.drop 64)

/-- Extend 16 message-schedule words to 64 (one step appends one word). -/
def sha2Extend : Nat → List Nat → List Nat
  | 0, ws => ws
  | fuel + 1, ws =>
      let n := ws.length
      let w15 := ws.getD (n - 15) 0
      let w2 := ws.getD (n - 2) 0
      let s0 := rotr32 w15 7 ^^^ rotr32 w15 18 ^^^ (w15 >>> 3)
      let s1 := rotr32 w2 17 ^^^ rotr32 w2 19 ^^^ (w2 >>> 10)
      sha2Extend fuel
        (ws ++ [(ws.getD (n - 16) 0 + s0 + ws.getD (n - 7) 0 + s1) % 4294967296])

/-- One compression round. -/
def sha2Round (st : Sha2State) (kw : Nat × Nat) : Sha2State :=
  let s1 := rotr32 st.e 6 ^^^ rotr32 st.e 11 ^^^ rotr32 st.e 25
  let ch := (st.e &&& st.f) ^^^ ((4294967295 ^^^ st.e) &&& st.g)
  let temp1 := (st.h + s1 + ch + kw.1 + kw.2) % 4294967296
  let s0 := rotr32 st.a 2 ^^^ rotr32 st.a 13 ^^^ rotr32 st.a 22
  let maj := (st.a &&& st.b) ^^^ (st.a &&& st.c) ^^^ (st.b &&& st.c)
  let temp2 := (s0 + maj) % 4294967296
  ⟨(temp1 + temp2) % 4294967296, st.a, st.b, st.c,
   (st.d + temp1) % 4294967296, st.e, st.f, st.g⟩

/-- Process one 64-byte chunk. -/
def sha2Chunk (st : Sha2State) (chunk : List Nat) : Sha2State :=
  let w := sha2Extend 48 (bytesToWords chunk)
  let r := (sha2K.zip w).foldl sha2Round st
  ⟨(st.a + r.a) % 4294967296, (st.b + r.b) % 4294967296,
   (st.c + r.c) % 4294967296, (st.d + r.d) % 4294967296,
   (st.e + r.e) % 4294967296, (st.f + r.f) % 4294967296,
   (st.g + r.g) % 4294967296, (st.h + r.h) % 4294967296⟩

/-- The 32 digest bytes of a byte message. -/
def sha256Bytes (msg : List Nat) : List Nat :=
  let padded := sha2Pad msg
  let st := (sha2Chunks (padded.length) padded).foldl sha2Chunk sha2Init
  [(st.a >>> 24) % 256, (st.a >>> 16) % 256, (st.a >>> 8) % 256, st.a % 256,
   (st.b >>> 24) % 256, (st.b >>> 16) % 256, (st.b >>> 8) % 256, st.b % 256,
   (st.c >>> 24) % 256, (st.c >>> 16) % 256, (st.c >>> 8) % 256, st.c % 256,
   (st.d >>> 24) % 256, (st.d >>> 16) % 256, (st.d >>> 8) % 256, st.d % 256,
   (st.e >>> 24) % 256, (st.e >>> 16) % 256, (st.e >>> 8) % 256, st.e % 256,
   (st.f >>> 24) % 256, (st.f >>> 16) % 256, (st.f >>> 8) % 256, st.f % 256,
   (st.g >>> 24) % 256, (st.g >>> 16) % 256, (st.g >>> 8) % 256, st.g % 256,
   (st.h >>> 24) % 256, (st.h >>> 16) % 256, (st.h >>> 8) % 256, st.h % 256]

/-- The sixteen lowercase hex digits. -/
def hexAlphabet : List Char := "0123456789abcdef".data

/-- The hex digit of `n % 16`. -/
def hexDigit (n : Nat) : Char := hexAlphabet.getD (n % 16) '0'

/-- Two lowercase hex characters of a byte. -/
def byteToHex (b : Nat) : List Char := [hexDigit (b / 16), hexDigit b]

/-- The characters of `hashlib.sha256(msg).hexdigest()`. -/
def sha256HexChars (msg : List Nat) : List Char :=
  (sha256Bytes msg).flatMap byteToHex

/-! ### Glob matching (Redis `scan_iter(match=...)` / `pathlib.Path.glob`) -/

/-- Glob matching with `*` (any sequence) and `?` (any one character);
character classes are not used by this codebase and are unmodelled.
`List.tails` supplies the candidate suffixes a `*` may leave behind. -/
def globChars : List Char → List Char → Bool
  | [], cs => cs.isEmpty
  | '*' :: ps, cs => (cs.tails).any fun suffix => globChars ps suffix
  | '?' :: _, [] => false
  | '?' :: ps, _ :: cs => globChars ps cs
  | _ :: _, [] => false
  | p :: ps, c :: cs => p == c && globChars ps cs

/-- Glob matching on strings. -/
def globMatch (pat s : String) : Bool := globChars pat.data s.data

/-- `key.replace(":", "_")`. -/
def colonToUnderscore (s : String) : String :=
  String.mk (s.data.map fun c => if c = ':' then '_' else c)

/-! ### Hybrid Cache Engine (`hybrid_cache.py`) -/

/-- A file in the engine's disk cache directory: a valid pickled
`{"expires_at": ..., "value": ...}` record, or bytes that `pickle.load`
cannot read back into such a record. -/
inductive DiskFile where
  | valid : Int → PyVal → DiskFile
  | malformed : DiskFile

namespace HybridCacheEngine

/-- The mutable state of one `HybridCacheEngine` instance together with the
two backing stores it touches: `disk` is the contents of its disk cache
directory (filename to file), `remote` the contents of the Redis database
(key to stored value).  `redisClient` models `_redis_client is not None` and
`redisAvailable` models `_redis_available`; `diskDir` models
`_disk_cache_dir is not None`. -/
structure S where
  cacheName : String
  redisClient : Bool
  redisAvailable : Bool
  diskDir : Bool
  disk : List (String × DiskFile)
  remote : List (String × PyVal)

/-- The string actually hashed by `_generate_key`: raw string key data
as-is, anything else through its canonical JSON encoding. -/
def keyString : PyVal → String
  | PyVal.str s => s
  | other => dumps other

/-- `hashlib.sha256(key_str.encode()).hexdigest()[:16]`. -/
def keyHash16 (keyData : PyVal) : List Char :=
  (sha256HexChars (utf8Bytes (keyString keyData))).take 16

/-- `_generate_key(prefix, key_data)`. -/
def generate_key (cacheName pfx : String) (keyData : PyVal) : String :=
  cacheName ++ ":" ++ pfx ++ ":" ++ String.mk (keyHash16 keyData)

/-- `_get_disk_path`: the file name used for a cache key. -/
def diskFilename (key : String) : String := colonToUnderscore key ++ ".cache"

/-- `_setup_redis`: with a reachable remote store the `ping` succeeds and
both the client and the availability flag are set; with a failing remote
(or the `redis` module absent) the client is dropped and the flag cleared. -/
def setup_redis (failing : Bool) (s : S) : S :=
  if failing then { s with redisClient := false, redisAvailable := false }
  else { s with redisClient := true, redisAvailable := true }

/-- `_ensure_redis`. -/
def ensure_redis (failing : Bool) (s : S) : S :=
  if s.redisAvailable && s.redisClient then s else setup_redis failing s

/-- Remove a disk file if it exists (`_safe_remove`); on the map a removal
of an absent file is a no-op. -/
def removeDisk (p : String) (s : S) : S :=
  { s with disk := Assoc.erase p s.disk }

/-- The disk phase of `get`: read the record, treat unreadable or absent or
expired records as a miss and remove the file, otherwise return the value. -/
def diskGet (now : Int) (s : S) (ck : String) : PyVal × S :=
  if !s.diskDir then (PyVal.none, s)
  else
    let p := diskFilename ck
    match Assoc.find p s.disk with
    | Option.none => (PyVal.none, removeDisk p s)
    | some DiskFile.malformed => (PyVal.none, removeDisk p s)
    | some (DiskFile.valid exp v) =>
        if exp ≤ now then (PyVal.none, removeDisk p s) else (v, s)

/-- `get(key, ttl)`.  The remote tier is consulted first when the instance
believes it is available; an exception there (modelled by `failing`) is
caught, logged, clears `_redis_available` and falls through to disk. -/
def get (failing : Bool) (now : Int) (s : S) (key : String) (_ttl : Int) : PyVal × S :=
  let ck := generate_key s.cacheName "cache" (PyVal.str key)
  let s1 := ensure_redis failing s
  if s1.redisAvailable && s1.redisClient then
    if failing then diskGet now { s1 with redisAvailable := false } ck
    else
      match Assoc.find ck s1.remote with
      | some v => (v, s1)
      | Option.none => diskGet now s1 ck
  else diskGet now s1 ck

/-- `clear_expired(now=now)` on the disk map: every `*.cache` file whose
record is unreadable or has `expires_at <= now` is removed. -/
def purgeDisk (now : Int) (disk : List (String × DiskFile)) : List (String × DiskFile) :=
  disk.filter fun pf =>
    if globMatch "*.cache" pf.1 then
      match pf.2 with
      | DiskFile.valid exp _ => decide (now < exp)
      | DiskFile.malformed => false
    else true

/-- The disk phase of `set`: purge expired entries, then write the record
`{"expires_at": now + ttl, "value": value}`. -/
def diskSet (now : Int) (s : S) (ck : String) (v : PyVal) (ttl : Int) : Bool × S :=
  if !s.diskDir then (false, s)
  else
    let newDisk := Assoc.insert (diskFilename ck) (DiskFile.valid (now + ttl) v)
      (purgeDisk now s.disk)
    (true, { s with disk := newDisk })

/-- `set(key, value, ttl)`: a successful remote `setex` returns true at once
without touching the disk; a remote exception is caught, clears
`_redis_available` and falls through to the disk phase. -/
def set (failing : Bool) (now : Int) (s : S) (key : String) (v : PyVal) (ttl : Int) :
    Bool × S :=
  let ck := generate_key s.cacheName "cache" (PyVal.str key)
  let s1 := ensure_redis failing s
  if s1.redisAvailable && s1.redisClient then
    if failing then diskSet now { s1 with redisAvailable := false } ck v ttl
    else (true, { s1 with remote := Assoc.insert ck v s1.remote })
  else diskSet now s1 ck v ttl

/-- `delete(key)`: best-effort removal from both tiers.  A remote exception
is caught and logged at debug level; unlike `get`/`set` it does not clear
`_redis_available`. -/
def delete (failing : Bool) (s : S) (key : String) : Bool × S :=
  let ck := generate_key s.cacheName "cache" (PyVal.str key)
  let s1 := ensure_redis failing s
  let r :=
    if s1.redisAvailable && s1.redisClient then
      if failing then (false, s1)
      else ((Assoc.find ck s1.remote).isSome, { s1 with remote := Assoc.erase ck s1.remote })
    else (false, s1)
  let s2 := r.2
  if s2.diskDir then
    let p := diskFilename ck
    (r.1 || (Assoc.find p s2.disk).isSome, removeDisk p s2)
  else (r.1, s2)

/-- `clear(pattern)`: delete the remote keys matching
`f"{cache_name}:{pattern}"` and the disk files matching the same pattern
with `:` replaced by `_` and `.cache` appended; return the combined count. -/
def clear (failing : Bool) (s : S) (pattern : String) : Nat × S :=
  let s1 := ensure_redis failing s
  let r :=
    if s1.redisAvailable && s1.redisClient then
      if failing then (0, s1)
      else
        let kp := s1.cacheName ++ ":" ++ pattern
        ((s1.remote.filter fun q => globMatch kp q.1).length,
         { s1 with remote := s1.remote.filter fun q => !globMatch kp q.1 })
    else (0, s1)
  let s2 := r.2
  if s2.diskDir then
    let dp := colonToUnderscore (s2.cacheName ++ ":" ++ pattern) ++ ".cache"
    (r.1 + (s2.disk.filter fun q => globMatch dp q.1).length,
     { s2 with disk := s2.disk.filter fun q => !globMatch dp q.1 })
  else r

end HybridCacheEngine

namespace HybridCacheEngine

/-! ### Singleton registry (`__new__` / `__init__`)

Python object identity is modelled by numeric instance ids allocated from
`nextId`; `_instances` maps cache names to ids and `heap` holds each
instance's `_initialized` flag together with the name recorded by the
`__init__` body (which also sets up the disk directory and the redis
client; those effects live in `S` and are summarised here by the name). -/

/-- One allocated `HybridCacheEngine` Python object. -/
structure Inst where
  initDone : Bool
  configuredName : Option String

/-- The process-wide singleton registry. -/
structure Registry where
  instances : List (String × Nat)
  heap : List (Nat × Inst)
  nextId : Nat

/-- `__new__`: reuse the registered instance for `cache_name`, else allocate
a fresh object with `_initialized = False` and register it. -/
def new (r : Registry) (cacheName : String) : Registry × Nat :=
  match Assoc.find cacheName r.instances with
  | some id => (r, id)
  | Option.none =>
      ({ instances := Assoc.insert cacheName r.nextId r.instances,
         heap := Assoc.insert r.nextId ⟨false, Option.none⟩ r.heap,
         nextId := r.nextId + 1 }, r.nextId)

/-- `__init__`: return immediately when `_initialized` is already set,
otherwise run the initialisation body and set it. -/
def init (r : Registry) (id : Nat) (cacheName : String) : Registry :=
  match Assoc.find id r.heap with
  | some inst =>
      if inst.initDone then r
      else { r with heap := Assoc.insert id ⟨true, some cacheName⟩ r.heap }
  | Option.none => r

/-- `HybridCacheEngine(cache_name)`: Python runs `__new__` then `__init__`
on its result. -/
def construct (r : Registry) (cacheName : String) : Registry × Nat :=
  let p := new r cacheName
  (init p.1 p.2 cacheName, p.2)

end HybridCacheEngine

/-! ### Object cache (`object_cache.py`) -/

namespace ObjectCacheEngine

/-- `_generate_key`: `class_name` participates only when truthy (non-`None`
and non-empty). -/
def generate_key (moduleName : String) (className : Option String)
    (functionName : String) : String :=
  match className with
  | some c =>
      if c.isEmpty then moduleName ++ ":" ++ functionName
      else moduleName ++ ":" ++ c ++ ":" ++ functionName
  | Option.none => moduleName ++ ":" ++ functionName

/-- `get`: `_cache.get(key)`.  The class-level `_cache` dict is passed
explicitly; the `RLock` only serialises dictionary access and adds no
behaviour to model in this sequential embedding. -/
def get {α : Type} (moduleName : String) (className : Option String)
    (functionName : String) (cache : List (String × α)) : Option α :=
  Assoc.find (generate_key moduleName className functionName) cache

/-- `set`: `_cache[key] = obj`. -/
def set {α : Type} (moduleName : String) (className : Option String)
    (functionName : String) (obj : α) (cache : List (String × α)) :
    List (String × α) :=
  Assoc.insert (generate_key moduleName className functionName) obj cache

end ObjectCacheEngine

/-! ### Decorators (`decorators.py`) -/

/-- The configuration captured by one application of the `hybrid_cache`
decorator.  `cache_enabled` is the boolean the wrapper observes on this call
(the code also accepts a zero-argument callable, which it evaluates to such
a boolean each call); `condition` is `None` or the caching predicate;
`key_generator` is `None` or the custom key function. -/
structure HCConfig where
  ttl : Int
  keyPref : String
  cacheName : String
  skipCacheArg : String
  cacheEnabled : Bool
  condition : Option (PyVal → Bool)
  keyGenerator : Option (List PyVal → List (String × PyVal) → PyVal)

/-- The key data the wrapper hands to `_generate_key` when no custom
key generator is configured: `{"args": args, "kwargs": kwargs}`. -/
def defaultKeyData (args : List PyVal) (kwargs : List (String × PyVal)) : PyVal :=
  PyVal.dict [("args", PyVal.list args), ("kwargs", PyVal.dict kwargs)]

/-- The cache key the `hybrid_cache` wrapper computes for a call, after
`skip_cache_arg` has been popped from `kwargs`. -/
def wrapperKey (cfg : HCConfig) (cacheName : String) (args : List PyVal)
    (kwargs : List (String × PyVal)) : String :=
  let kw := Assoc.erase cfg.skipCacheArg kwargs
  let keyData := match cfg.keyGenerator with
    | some g => g args kw
    | Option.none => defaultKeyData args kw
  HybridCacheEngine.generate_key cacheName cfg.keyPref keyData

/-- The wrapper produced by `hybrid_cache`.  The wrapped function `func` may
carry its own state of type `σ` (e.g. a call counter); it receives the
kwargs with `skip_cache_arg` popped.  Exceptions from `func` are not
modelled: `func` is total here, matching the claims in scope, and the
wrapper result is `(return value, engine state, func state)`. -/
def hybridCacheWrapper {σ : Type} (cfg : HCConfig) (failing : Bool) (now : Int)
    (func : List PyVal → List (String × PyVal) → σ → PyVal × σ)
    (args : List PyVal) (kwargs : List (String × PyVal))
    (e : HybridCacheEngine.S) (fs : σ) : PyVal × HybridCacheEngine.S × σ :=
  if !cfg.cacheEnabled then
    let r := func args kwargs fs
    (r.1, e, r.2)
  else
    let skip := (Assoc.find cfg.skipCacheArg kwargs).getD (PyVal.bool false)
    let kw := Assoc.erase cfg.skipCacheArg kwargs
    if pyTruthy skip then
      let r := func args kw fs
      (r.1, e, r.2)
    else
      let cacheKey := wrapperKey cfg e.cacheName args kw
      let g := HybridCacheEngine.get failing now e cacheKey cfg.ttl
      if !g.1.isNone then (g.1, g.2, fs)
      else
        let r := func args kw fs
        let shouldCache := match cfg.condition with
          | Option.none => true
          | some c => c r.1
        if shouldCache then
          let st := HybridCacheEngine.set failing now g.2 cacheKey r.1 cfg.ttl
          (r.1, st.2, r.2)
        else (r.1, g.2, r.2)

/-- The call path of an `object_cache`-wrapped resolver (its `get_invoker`),
for a call without `constructor_parameters` (with them, the returned bound
method's instance is additionally re-initialised, which adds nothing to the
cache behaviour modelled here).  The resolver carries a state of type `σ`
(e.g. a call counter) and may resolve to `Option.none`, modelling a Python
resolver returning `None`.  `Except.error` models the `ValueError` raised
for a missing `module_name`/`function_name`. -/
def objectCacheCall {α σ : Type} (moduleName : String) (className : Option String)
    (functionName : String) (resolver : σ → Option α × σ)
    (cache : List (String × α)) (fs : σ) :
    Except Unit (Option α × List (String × α) × σ) :=
  if moduleName.isEmpty || functionName.isEmpty then Except.error ()
  else
    match ObjectCacheEngine.get moduleName className functionName cache with
    | some obj => Except.ok (some obj, cache, fs)
    | Option.none =>
        let r := resolver fs
        match r.1 with
        | some o =>
            Except.ok (some o,
              ObjectCacheEngine.set moduleName className functionName o cache, r.2)
        | Option.none => Except.ok (Option.none, cache, r.2)

/-! ### Shared concrete fixtures for claims -/

/-- A freshly initialised engine state for cache name `"settings"`: disk
directory created, redis not yet probed, both stores empty. -/
def settingsEngine0 : HybridCacheEngine.S :=
  ⟨"settings", false, false, true, [], []⟩

/-- A freshly initialised engine state for cache name `"default"`. -/
def defaultEngine0 : HybridCacheEngine.S :=
  ⟨"default", false, false, true, [], []⟩

/-- The value `{"plan": "pro"}` from the end-to-end scenario. -/
def planPro : PyVal := PyVal.dict [("plan", PyVal.str "pro")]

/-- The disk file name under which the `hybrid_cache` wrapper's engine
stores a call's result (the wrapper key is itself re-hashed by
`HybridCacheEngine.get`/`set` under the `"cache"` prefix). -/
def wrapperDiskPath (cfg : HCConfig) (cacheName : String) (args : List PyVal)
    (kwargs : List (String × PyVal)) : String :=
  HybridCacheEngine.diskFilename (HybridCacheEngine.generate_key cacheName "cache"
    (PyVal.str (wrapperKey cfg cacheName args (Assoc.erase cfg.skipCacheArg kwargs))))

/-! ### Helper lemmas about the key hash -/

theorem sha256HexChars_length (msg : List Nat) : (sha256HexChars msg).length = 64 := by
  simp [sha256HexChars, sha256Bytes, byteToHex]

theorem hexDigit_mem (n : Nat) : hexDigit n ∈ hexAlphabet := by
  have h : n % 16 < 16 := Nat.mod_lt _ (by omega)
  unfold hexDigit
  suffices H : ∀ m, m < 16 → hexAlphabet.getD m '0' ∈ hexAlphabet from H _ h
  intro m hm
  interval_cases m <;> decide

theorem keyHash16_length (d : PyVal) : (HybridCacheEngine.keyHash16 d).length = 16 := by
  simp [HybridCacheEngine.keyHash16, List.length_take, sha256HexChars_length]

theorem keyHash16_hex (d : PyVal) :
    ∀ c ∈ HybridCacheEngine.keyHash16 d, c ∈ hexAlphabet := by
  intro c hc
  have hc2 : c ∈ sha256HexChars (utf8Bytes (HybridCacheEngine.keyString d)) :=
    List.take_subset _ _ hc
  simp only [sha256HexChars, List.mem_flatMap] at hc2
  obtain ⟨b, _, hcb⟩ := hc2
  simp only [byteToHex, List.mem_cons, List.not_mem_nil, or_false] at hcb
  rcases hcb with h | h <;> subst h <;> exact hexDigit_mem _

/-! ### Claims -/

/-- C1 (amended): with the remote store raising on every call, `set` then
`get` still returns the stored value from disk, both calls return normally
(they are total functions of the state, every remote exception being caught
inside), and `get`/`set` clear the `_redis_available` flag on remote
errors; `delete` also catches remote errors and never propagates them, but
leaves the availability flag exactly as `_ensure_redis` left it — it does
not flip the flag on a remote-tier error. -/
theorem fallback_transparency (s : HybridCacheEngine.S) (now now2 : Int) (key : String)
    (v : PyVal) (ttl : Int)
    (hdisk : s.diskDir = true) (hlt : now2 < now + ttl) :
    (HybridCacheEngine.set true now s key v ttl).1 = true
    ∧ ((HybridCacheEngine.set true now s key v ttl).2).redisAvailable = false
    ∧ (HybridCacheEngine.get true now2
        (HybridCacheEngine.set true now s key v ttl).2 key ttl).1 = v
    ∧ ((HybridCacheEngine.get true now2
        (HybridCacheEngine.set true now s key v ttl).2 key ttl).2).redisAvailable = false
    ∧ ((HybridCacheEngine.delete true s key).2).redisAvailable
        = (HybridCacheEngine.ensure_redis true s).redisAvailable := by
  have hexp : ¬ (now + ttl ≤ now2) := by omega
  unfold HybridCacheEngine.set HybridCacheEngine.get HybridCacheEngine.delete
    HybridCacheEngine.ensure_redis HybridCacheEngine.setup_redis
    HybridCacheEngine.diskSet HybridCacheEngine.diskGet HybridCacheEngine.removeDisk
  by_cases h : s.redisAvailable && s.redisClient <;>
    simp [h, hdisk, Assoc.find_insert_self, hexp]

/-- Witness for C1: a fresh disk-backed engine, an always-failing remote,
`set("k","v",300)` at time 0 then `get("k",300)` at time 1. -/
theorem fallback_transparency_witness :
    defaultEngine0.diskDir = true ∧ (1 : Int) < 0 + 300
    ∧ (HybridCacheEngine.set true 0 defaultEngine0 "k" (PyVal.str "v") 300).1 = true
    ∧ ((HybridCacheEngine.set true 0 defaultEngine0 "k" (PyVal.str "v") 300).2).redisAvailable
        = false
    ∧ (HybridCacheEngine.get true 1
        (HybridCacheEngine.set true 0 defaultEngine0 "k" (PyVal.str "v") 300).2 "k" 300).1
        = PyVal.str "v"
    ∧ ((HybridCacheEngine.get true 1
        (HybridCacheEngine.set true 0 defaultEngine0 "k" (PyVal.str "v") 300).2 "k" 300).2).redisAvailable
        = false
    ∧ ((HybridCacheEngine.delete true defaultEngine0 "k").2).redisAvailable
        = (HybridCacheEngine.ensure_redis true defaultEngine0).redisAvailable := by
  have h := fallback_transparency defaultEngine0 0 1 "k" (PyVal.str "v") 300 rfl (by decide)
  exact ⟨rfl, by decide, h.1, h.2.1, h.2.2.1, h.2.2.2.1, h.2.2.2.2⟩

/-- Counterexample to C1 as stated: an engine that still believes the remote
store is available (`_redis_available` and `_redis_client` both set) hits a
remote exception inside `delete`; the exception is caught, but the
availability flag is NOT flipped — after the call it is still `true`,
because `delete`'s `except` branch only logs. -/
theorem delete_error_keeps_flag_counterexample :
    ((HybridCacheEngine.delete true ⟨"default", true, true, true, [], []⟩ "k").2).redisAvailable
      = true := rfl

/-- C2: when the remote tier yields no hit (it raises, or the key is not
there), `get` serves the disk record: a record with `expires_at <= now` is
treated as absent — `get` returns `None` and deletes the stale file — while
a record with `expires_at > now` yields its stored value and keeps the
file. -/
theorem get_expired_record_is_miss (failing : Bool) (s : HybridCacheEngine.S)
    (now : Int) (key : String) (ttl exp : Int) (v : PyVal)
    (hdisk : s.diskDir = true)
    (hmiss : failing = true
      ∨ Assoc.find (HybridCacheEngine.generate_key s.cacheName "cache" (PyVal.str key))
          s.remote = Option.none)
    (hfile : Assoc.find (HybridCacheEngine.diskFilename
        (HybridCacheEngine.generate_key s.cacheName "cache" (PyVal.str key))) s.disk
      = some (DiskFile.valid exp v)) :
    (HybridCacheEngine.get failing now s key ttl).1
      = (if exp ≤ now then PyVal.none else v)
    ∧ Assoc.find (HybridCacheEngine.diskFilename
        (HybridCacheEngine.generate_key s.cacheName "cache" (PyVal.str key)))
        ((HybridCacheEngine.get failing now s key ttl).2).disk
      = (if exp ≤ now then Option.none else some (DiskFile.valid exp v)) := by
  unfold HybridCacheEngine.get HybridCacheEngine.ensure_redis
    HybridCacheEngine.setup_redis HybridCacheEngine.diskGet HybridCacheEngine.removeDisk
  rcases hmiss with hf | hm
  · subst hf
    by_cases h : s.redisAvailable && s.redisClient <;> by_cases he : exp ≤ now <;>
      simp [h, hdisk, hfile, he]
  · by_cases h : s.redisAvailable && s.redisClient <;> by_cases he : exp ≤ now <;>
      by_cases hf : failing <;>
      simp [h, hdisk, hfile, he, hf, hm]

/-- Witness for C2: a disk record for `"k"` with `expires_at = 0` read at
time 5 under an always-failing remote is a miss and the file is removed. -/
theorem get_expired_record_is_miss_witness :
    (⟨"default", false, false, true,
        [(HybridCacheEngine.diskFilename
            (HybridCacheEngine.generate_key "default" "cache" (PyVal.str "k")),
          DiskFile.valid 0 (PyVal.str "v"))], []⟩ : HybridCacheEngine.S).diskDir = true
    ∧ Assoc.find (HybridCacheEngine.diskFilename
        (HybridCacheEngine.generate_key "default" "cache" (PyVal.str "k")))
        (⟨"default", false, false, true,
          [(HybridCacheEngine.diskFilename
              (HybridCacheEngine.generate_key "default" "cache" (PyVal.str "k")),
            DiskFile.valid 0 (PyVal.str "v"))], []⟩ : HybridCacheEngine.S).disk
      = some (DiskFile.valid 0 (PyVal.str "v"))
    ∧ (HybridCacheEngine.get true 5
        ⟨"default", false, false, true,
          [(HybridCacheEngine.diskFilename
              (HybridCacheEngine.generate_key "default" "cache" (PyVal.str "k")),
            DiskFile.valid 0 (PyVal.str "v"))], []⟩ "k" 300).1
      = (if (0 : Int) ≤ 5 then PyVal.none else PyVal.str "v")
    ∧ Assoc.find (HybridCacheEngine.diskFilename
        (HybridCacheEngine.generate_key "default" "cache" (PyVal.str "k")))
        ((HybridCacheEngine.get true 5
          ⟨"default", false, false, true,
            [(HybridCacheEngine.diskFilename
                (HybridCacheEngine.generate_key "default" "cache" (PyVal.str "k")),
              DiskFile.valid 0 (PyVal.str "v"))], []⟩ "k" 300).2).disk
      = (if (0 : Int) ≤ 5 then Option.none else some (DiskFile.valid 0 (PyVal.str "v"))) := by
  have h := get_expired_record_is_miss true
    ⟨"default", false, false, true,
      [(HybridCacheEngine.diskFilename
          (HybridCacheEngine.generate_key "default" "cache" (PyVal.str "k")),
        DiskFile.valid 0 (PyVal.str "v"))], []⟩
    5 "k" 300 0 (PyVal.str "v") rfl (Or.inl rfl) rfl
  exact ⟨rfl, rfl, h.1, h.2⟩

/-- C3: with a healthy remote store `set` returns true at once and leaves
the disk map exactly as it was (no record created or refreshed); with the
remote failing, `set` succeeds exactly when the disk directory exists, and
the resulting disk map is the expired-purged map plus the fresh record
`{"expires_at": now + ttl, "value": value}` (disk untouched when no
directory). -/
theorem set_no_dual_write (s : HybridCacheEngine.S) (now : Int) (key : String)
    (v : PyVal) (ttl : Int) :
    (HybridCacheEngine.set false now s key v ttl).1 = true
    ∧ ((HybridCacheEngine.set false now s key v ttl).2).disk = s.disk
    ∧ (HybridCacheEngine.set true now s key v ttl).1 = s.diskDir
    ∧ ((HybridCacheEngine.set true now s key v ttl).2).disk =
        (if s.diskDir then
          Assoc.insert (HybridCacheEngine.diskFilename
              (HybridCacheEngine.generate_key s.cacheName "cache" (PyVal.str key)))
            (DiskFile.valid (now + ttl) v) (HybridCacheEngine.purgeDisk now s.disk)
        else s.disk) := by
  unfold HybridCacheEngine.set HybridCacheEngine.ensure_redis
    HybridCacheEngine.setup_redis HybridCacheEngine.diskSet
  by_cases h : s.redisAvailable && s.redisClient <;> by_cases hd : s.diskDir <;>
    simp [h, hd]

/-- C4: constructing `HybridCacheEngine(cache_name)` a second time with the
same name is the identity: it returns the same instance (same object id)
and leaves the whole registry — including every instance's `_initialized`
flag and fields — unchanged, so no initialisation re-runs. -/
theorem construct_singleton (r : HybridCacheEngine.Registry) (cacheName : String) :
    HybridCacheEngine.construct (HybridCacheEngine.construct r cacheName).1 cacheName
      = HybridCacheEngine.construct r cacheName := by
  unfold HybridCacheEngine.construct HybridCacheEngine.new HybridCacheEngine.init
  rcases hfind : Assoc.find cacheName r.instances with _ | id
  · simp only [hfind, Assoc.find_insert_self]
    simp [Assoc.find_insert_self]
  · simp only [hfind]
    rcases hheap : Assoc.find id r.heap with _ | inst
    · simp [hheap, hfind]
    · by_cases hinit : inst.initDone
      · simp [hheap, hinit, hfind]
      · simp [hheap, hinit, hfind, Assoc.find_insert_self]

/-- C5: key generation is deterministic and order-independent — the two
insertion orders of `{"a": 1, "b": 2}` give the same key, while
`{"a": 1, "b": 3}` gives a different one — and for every prefix and key
datum the result is `{namespace}:{prefix}:{hash}` where `hash` is the
16-character truncation of the SHA-256 hex digest of the canonical JSON
encoding (or of the raw string itself for string key data), so it has
exactly 16 lowercase hex characters. -/
theorem generate_key_canonical (cacheName pfx : String) :
    HybridCacheEngine.generate_key cacheName pfx
        (PyVal.dict [("a", PyVal.int 1), ("b", PyVal.int 2)])
      = HybridCacheEngine.generate_key cacheName pfx
        (PyVal.dict [("b", PyVal.int 2), ("a", PyVal.int 1)])
    ∧ HybridCacheEngine.generate_key cacheName pfx
        (PyVal.dict [("a", PyVal.int 1), ("b", PyVal.int 2)])
      ≠ HybridCacheEngine.generate_key cacheName pfx
        (PyVal.dict [("a", PyVal.int 1), ("b", PyVal.int 3)])
    ∧ ∀ keyData : PyVal,
        HybridCacheEngine.generate_key cacheName pfx keyData
          = cacheName ++ ":" ++ pfx ++ ":"
            ++ String.mk (HybridCacheEngine.keyHash16 keyData)
        ∧ (HybridCacheEngine.keyHash16 keyData).length = 16
        ∧ ∀ c ∈ HybridCacheEngine.keyHash16 keyData, c ∈ hexAlphabet := by
  refine ⟨rfl, ?_, fun keyData => ⟨rfl, keyHash16_length keyData, keyHash16_hex keyData⟩⟩
  intro h
  have h2 := congrArg String.data h
  simp only [HybridCacheEngine.generate_key, String.data_append] at h2
  have h3 := List.append_cancel_left h2
  exact absurd h3 (by decide)

/-- C6 (amended): `clear(pattern)` removes exactly the remote keys matching
`{cache_name}:{pattern}` and exactly the disk files matching that pattern
with `:` replaced by `_` and `.cache` appended, returning the combined
count.  However, stored keys have the hashed form
`{cache_name}:cache:{hash}`, so in the end-to-end scenario the pattern
`"tenant:*"` matches nothing; a pattern covering the hashed keyspace such
as `"cache:*"` does remove the entry, after which `get` returns absent. -/
theorem clear_pattern (s : HybridCacheEngine.S) (pattern k1 k2 k3 k4 : String)
    (hk1 : globMatch (s.cacheName ++ ":" ++ pattern) k1 = true)
    (hk2 : globMatch (s.cacheName ++ ":" ++ pattern) k2 = false)
    (hdisk : s.diskDir = true)
    (hk3 : globMatch (colonToUnderscore (s.cacheName ++ ":" ++ pattern) ++ ".cache") k3
      = true)
    (hk4 : globMatch (colonToUnderscore (s.cacheName ++ ":" ++ pattern) ++ ".cache") k4
      = false) :
    Assoc.find k1 ((HybridCacheEngine.clear false s pattern).2).remote = Option.none
    ∧ Assoc.find k2 ((HybridCacheEngine.clear false s pattern).2).remote
        = Assoc.find k2 s.remote
    ∧ Assoc.find k3 ((HybridCacheEngine.clear false s pattern).2).disk = Option.none
    ∧ Assoc.find k4 ((HybridCacheEngine.clear false s pattern).2).disk
        = Assoc.find k4 s.disk
    ∧ (HybridCacheEngine.clear false s pattern).1
        = (s.remote.filter fun q => globMatch (s.cacheName ++ ":" ++ pattern) q.1).length
          + (s.disk.filter fun q =>
              globMatch (colonToUnderscore (s.cacheName ++ ":" ++ pattern) ++ ".cache")
                q.1).length
    ∧ (HybridCacheEngine.set false 0 settingsEngine0 "tenant:42" planPro 5).1 = true
    ∧ (HybridCacheEngine.get false 0
        (HybridCacheEngine.set false 0 settingsEngine0 "tenant:42" planPro 5).2
        "tenant:42" 5).1 = planPro
    ∧ (HybridCacheEngine.clear false
        (HybridCacheEngine.get false 0
          (HybridCacheEngine.set false 0 settingsEngine0 "tenant:42" planPro 5).2
          "tenant:42" 5).2 "cache:*").1 = 1
    ∧ (HybridCacheEngine.get false 0
        (HybridCacheEngine.clear false
          (HybridCacheEngine.get false 0
            (HybridCacheEngine.set false 0 settingsEngine0 "tenant:42" planPro 5).2
            "tenant:42" 5).2 "cache:*").2 "tenant:42" 5).1 = PyVal.none := by
  refine ⟨?_, ?_, ?_, ?_, ?_, rfl, rfl, rfl, rfl⟩ <;>
    unfold HybridCacheEngine.clear HybridCacheEngine.ensure_redis
      HybridCacheEngine.setup_redis <;>
    by_cases h : s.redisAvailable && s.redisClient <;>
    simp [h, hdisk] <;>
    first
      | (rw [Assoc.find_filter (fun key => !globMatch (s.cacheName ++ ":" ++ pattern) key)]
         simp [hk1, hk2])
      | (rw [Assoc.find_filter
            (fun key =>
              !globMatch (colonToUnderscore (s.cacheName ++ ":" ++ pattern) ++ ".cache") key)]
         simp [hk3, hk4])

/-- Witness for C6: a two-store state under cache name `"n"` and the
pattern `"x:*"`, with one matching and one non-matching key per store. -/
theorem clear_pattern_witness :
    globMatch ("n" ++ ":" ++ "x:*") "n:x:a" = true
    ∧ globMatch ("n" ++ ":" ++ "x:*") "n:y" = false
    ∧ globMatch (colonToUnderscore ("n" ++ ":" ++ "x:*") ++ ".cache") "n_x_a.cache" = true
    ∧ globMatch (colonToUnderscore ("n" ++ ":" ++ "x:*") ++ ".cache") "nope" = false
    ∧ Assoc.find "n:x:a"
        ((HybridCacheEngine.clear false
          ⟨"n", false, false, true, [("n_x_a.cache", DiskFile.malformed)],
            [("n:x:a", PyVal.int 1)]⟩ "x:*").2).remote = Option.none
    ∧ Assoc.find "n_x_a.cache"
        ((HybridCacheEngine.clear false
          ⟨"n", false, false, true, [("n_x_a.cache", DiskFile.malformed)],
            [("n:x:a", PyVal.int 1)]⟩ "x:*").2).disk = Option.none
    ∧ (HybridCacheEngine.clear false
        ⟨"n", false, false, true, [("n_x_a.cache", DiskFile.malformed)],
          [("n:x:a", PyVal.int 1)]⟩ "x:*").1 = 2 := by
  have h := clear_pattern
    ⟨"n", false, false, true, [("n_x_a.cache", DiskFile.malformed)],
      [("n:x:a", PyVal.int 1)]⟩ "x:*" "n:x:a" "n:y" "n_x_a.cache" "nope"
    rfl rfl rfl rfl rfl
  exact ⟨rfl, rfl, rfl, rfl, h.1, h.2.2.1, h.2.2.2.2.1⟩

/-- Counterexample to C6 as stated: in the end-to-end scenario
`clear("tenant:*")` removes nothing — the stored key is
`settings:cache:{hash}`, which the expanded pattern `settings:tenant:*`
does not match — and the subsequent `get("tenant:42")` still returns
`{"plan": "pro"}` rather than absent. -/
theorem clear_pattern_counterexample :
    (HybridCacheEngine.clear false
      (HybridCacheEngine.get false 0
        (HybridCacheEngine.set false 0 settingsEngine0 "tenant:42" planPro 5).2
        "tenant:42" 5).2 "tenant:*").1 = 0
    ∧ ((HybridCacheEngine.get false 0
        (HybridCacheEngine.clear false
          (HybridCacheEngine.get false 0
            (HybridCacheEngine.set false 0 settingsEngine0 "tenant:42" planPro 5).2
            "tenant:42" 5).2 "tenant:*").2 "tenant:42" 5).1).isNone = false
    ∧ (HybridCacheEngine.get false 0
        (HybridCacheEngine.clear false
          (HybridCacheEngine.get false 0
            (HybridCacheEngine.set false 0 settingsEngine0 "tenant:42" planPro 5).2
            "tenant:42" 5).2 "tenant:*").2 "tenant:42" 5).1 = planPro :=
  ⟨rfl, rfl, rfl⟩

/-- C7: when a `hybrid_cache`-decorated function is called with a truthy
`skip_cache` argument (and caching is enabled), the wrapper calls straight
through to the wrapped function — whatever the cache holds — with
`skip_cache` removed from the kwargs, and the engine state is returned
untouched: no cache read, no cache write. -/
theorem skip_cache_bypass {σ : Type} (cfg : HCConfig) (failing : Bool) (now : Int)
    (func : List PyVal → List (String × PyVal) → σ → PyVal × σ)
    (args : List PyVal) (kwargs : List (String × PyVal))
    (e : HybridCacheEngine.S) (fs : σ)
    (hen : cfg.cacheEnabled = true)
    (hskip : pyTruthy ((Assoc.find cfg.skipCacheArg kwargs).getD (PyVal.bool false))
      = true) :
    hybridCacheWrapper cfg failing now func args kwargs e fs
      = ((func args (Assoc.erase cfg.skipCacheArg kwargs) fs).1, e,
         (func args (Assoc.erase cfg.skipCacheArg kwargs) fs).2) := by
  simp [hybridCacheWrapper, hen, hskip]

/-- Witness for C7: `skip_cache=True` on an engine whose cache holds a
valid entry for this very call; the function (a counter) runs and the
engine state is unchanged. -/
theorem skip_cache_bypass_witness :
    (⟨300, "pfx", "default", "skip_cache", true, Option.none, Option.none⟩
        : HCConfig).cacheEnabled = true
    ∧ pyTruthy ((Assoc.find "skip_cache" [("skip_cache", PyVal.bool true)]).getD
        (PyVal.bool false)) = true
    ∧ hybridCacheWrapper
        ⟨300, "pfx", "default", "skip_cache", true, Option.none, Option.none⟩
        true 0 (fun _ _ (n : Nat) => (PyVal.int 7, n + 1))
        [] [("skip_cache", PyVal.bool true)] defaultEngine0 0
      = (PyVal.int 7, defaultEngine0, 1) := by
  refine ⟨rfl, rfl, ?_⟩
  exact skip_cache_bypass
    ⟨300, "pfx", "default", "skip_cache", true, Option.none, Option.none⟩
    true 0 (fun _ _ (n : Nat) => (PyVal.int 7, n + 1))
    [] [("skip_cache", PyVal.bool true)] defaultEngine0 0 rfl rfl

/-- C8: an `object_cache`-decorated resolver runs at most once for a
non-absent result — the first call on a missing key invokes the resolver
once (counter 0 to 1) and stores the object; the second call with the same
`(module, class, function)` triple returns the identical object from the
cache with the resolver counter unchanged. -/
theorem object_cache_memoizes {α : Type} (m : String) (c : Option String) (f : String)
    (obj : α) (cache : List (String × α))
    (hm : m.isEmpty = false) (hf : f.isEmpty = false)
    (hmiss : ObjectCacheEngine.get m c f cache = Option.none) :
    objectCacheCall m c f (fun n : Nat => (some obj, n + 1)) cache 0
      = Except.ok (some obj, ObjectCacheEngine.set m c f obj cache, 1)
    ∧ objectCacheCall m c f (fun n : Nat => (some obj, n + 1))
        (ObjectCacheEngine.set m c f obj cache) 1
      = Except.ok (some obj, ObjectCacheEngine.set m c f obj cache, 1) := by
  constructor
  · simp [objectCacheCall, hm, hf, hmiss]
  · simp [objectCacheCall, hm, hf, ObjectCacheEngine.get, ObjectCacheEngine.set]

/-- Witness for C8: resolving `("module_a", None, "func_x")` twice from an
empty cache with a counting resolver returning the object `42`. -/
theorem object_cache_memoizes_witness :
    ("module_a".isEmpty = false)
    ∧ ("func_x".isEmpty = false)
    ∧ ObjectCacheEngine.get "module_a" Option.none "func_x" ([] : List (String × Nat))
        = Option.none
    ∧ objectCacheCall "module_a" Option.none "func_x"
        (fun n : Nat => (some 42, n + 1)) ([] : List (String × Nat)) 0
      = Except.ok (some 42, ObjectCacheEngine.set "module_a" Option.none "func_x" 42 [], 1)
    ∧ objectCacheCall "module_a" Option.none "func_x"
        (fun n : Nat => (some 42, n + 1))
        (ObjectCacheEngine.set "module_a" Option.none "func_x" 42 []) 1
      = Except.ok (some 42, ObjectCacheEngine.set "module_a" Option.none "func_x" 42 [], 1) := by
  have h := object_cache_memoizes "module_a" Option.none "func_x" 42
    ([] : List (String × Nat)) rfl rfl rfl
  exact ⟨rfl, rfl, rfl, h.1, h.2⟩

/-- C9: `get` cannot distinguish a stored `None` from absence: with the
remote tier failing, `get` of a never-set key returns `None`, and `get`
after `set(key, None, ttl)` also returns `None`; consequently the
`hybrid_cache` wrapper treats a cached `None` as a miss — with a wrapped
function that always returns `None` (and the default always-cache
condition), both the first call and the call after the result was cached
invoke the function again (counter 0 to 1 to 2). -/
theorem none_indistinguishable (s : HybridCacheEngine.S) (now now2 : Int) (key : String)
    (ttl : Int) (cfg : HCConfig)
    (func : List PyVal → List (String × PyVal) → Nat → PyVal × Nat)
    (args : List PyVal) (kwargs : List (String × PyVal)) (e : HybridCacheEngine.S)
    (hfile : Assoc.find (HybridCacheEngine.diskFilename
        (HybridCacheEngine.generate_key s.cacheName "cache" (PyVal.str key))) s.disk
      = Option.none)
    (hen : cfg.cacheEnabled = true)
    (hcond : cfg.condition = Option.none)
    (hskip : pyTruthy ((Assoc.find cfg.skipCacheArg kwargs).getD (PyVal.bool false))
      = false)
    (hdisk2 : e.diskDir = true)
    (hfile2 : Assoc.find (wrapperDiskPath cfg e.cacheName args kwargs) e.disk
      = Option.none)
    (httl : 0 < cfg.ttl)
    (hfunc : ∀ a k n, func a k n = (PyVal.none, n + 1)) :
    (HybridCacheEngine.get true now s key ttl).1 = PyVal.none
    ∧ (HybridCacheEngine.get true now2
        (HybridCacheEngine.set true now s key PyVal.none ttl).2 key ttl).1 = PyVal.none
    ∧ (hybridCacheWrapper cfg true now func args kwargs e 0).1 = PyVal.none
    ∧ ((hybridCacheWrapper cfg true now func args kwargs e 0).2).2 = 1
    ∧ (hybridCacheWrapper cfg true now func args kwargs
        (hybridCacheWrapper cfg true now func args kwargs e 0).2.1
        (hybridCacheWrapper cfg true now func args kwargs e 0).2.2).1 = PyVal.none
    ∧ ((hybridCacheWrapper cfg true now func args kwargs
        (hybridCacheWrapper cfg true now func args kwargs e 0).2.1
        (hybridCacheWrapper cfg true now func args kwargs e 0).2.2).2).2 = 2 := by
  have hexp : ¬ (now + cfg.ttl ≤ now) := by omega
  refine ⟨?_, ?_, ?_⟩
  · unfold HybridCacheEngine.get HybridCacheEngine.ensure_redis
      HybridCacheEngine.setup_redis HybridCacheEngine.diskGet HybridCacheEngine.removeDisk
    by_cases h : s.redisAvailable && s.redisClient <;> by_cases hd : s.diskDir <;>
      simp [h, hd, hfile]
  · unfold HybridCacheEngine.set HybridCacheEngine.get HybridCacheEngine.ensure_redis
      HybridCacheEngine.setup_redis HybridCacheEngine.diskSet HybridCacheEngine.diskGet
      HybridCacheEngine.removeDisk
    by_cases h : s.redisAvailable && s.redisClient <;> by_cases hd : s.diskDir <;>
      by_cases he : now + ttl ≤ now2 <;>
      simp [h, hd, he, Assoc.find_insert_self]
  · unfold hybridCacheWrapper wrapperDiskPath at *
    unfold HybridCacheEngine.get HybridCacheEngine.set HybridCacheEngine.ensure_redis
      HybridCacheEngine.setup_redis HybridCacheEngine.diskSet HybridCacheEngine.diskGet
      HybridCacheEngine.removeDisk
    by_cases h : e.redisAvailable && e.redisClient <;>
      simp [h, hen, hcond, hskip, hdisk2, hfile2, hfunc, hexp,
        Assoc.find_insert_self, PyVal.isNone]

/-- Witness for C9: fresh disk-backed engines, key `"k"`, a counting
function constantly returning `None`, empty args/kwargs. -/
theorem none_indistinguishable_witness :
    Assoc.find (HybridCacheEngine.diskFilename
        (HybridCacheEngine.generate_key "default" "cache" (PyVal.str "k")))
        defaultEngine0.disk = Option.none
    ∧ (⟨300, "pfx", "default", "skip_cache", true, Option.none, Option.none⟩
        : HCConfig).cacheEnabled = true
    ∧ pyTruthy ((Assoc.find "skip_cache" ([] : List (String × PyVal))).getD
        (PyVal.bool false)) = false
    ∧ defaultEngine0.diskDir = true
    ∧ Assoc.find (wrapperDiskPath
        ⟨300, "pfx", "default", "skip_cache", true, Option.none, Option.none⟩
        "default" [] []) defaultEngine0.disk = Option.none
    ∧ (0 : Int) < 300
    ∧ (HybridCacheEngine.get true 0 defaultEngine0 "k" 300).1 = PyVal.none
    ∧ (HybridCacheEngine.get true 0
        (HybridCacheEngine.set true 0 defaultEngine0 "k" PyVal.none 300).2 "k" 300).1
      = PyVal.none
    ∧ (hybridCacheWrapper
        ⟨300, "pfx", "default", "skip_cache", true, Option.none, Option.none⟩
        true 0 (fun _ _ (n : Nat) => (PyVal.none, n + 1)) [] [] defaultEngine0 0).1
      = PyVal.none
    ∧ ((hybridCacheWrapper
        ⟨300, "pfx", "default", "skip_cache", true, Option.none, Option.none⟩
        true 0 (fun _ _ (n : Nat) => (PyVal.none, n + 1)) [] [] defaultEngine0 0).2).2 = 1
    ∧ ((hybridCacheWrapper
        ⟨300, "pfx", "default", "skip_cache", true, Option.none, Option.none⟩
        true 0 (fun _ _ (n : Nat) => (PyVal.none, n + 1)) [] []
        (hybridCacheWrapper
          ⟨300, "pfx", "default", "skip_cache", true, Option.none, Option.none⟩
          true 0 (fun _ _ (n : Nat) => (PyVal.none, n + 1)) [] [] defaultEngine0 0).2.1
        (hybridCacheWrapper
          ⟨300, "pfx", "default", "skip_cache", true, Option.none, Option.none⟩
          true 0 (fun _ _ (n : Nat) => (PyVal.none, n + 1)) [] [] defaultEngine0 0).2.2).2).2
      = 2 := by
  have h := none_indistinguishable defaultEngine0 0 0 "k" 300
    ⟨300, "pfx", "default", "skip_cache", true, Option.none, Option.none⟩
    (fun _ _ (n : Nat) => (PyVal.none, n + 1)) [] [] defaultEngine0
    rfl rfl rfl rfl rfl rfl (by decide) (fun _ _ _ => rfl)
  exact ⟨rfl, rfl, rfl, rfl, rfl, by decide, h.1, h.2.1, h.2.2.1, h.2.2.2.1, h.2.2.2.2.2⟩

/-- C10: the object-cache key mapping is not injective — the distinct
triples `("a:b", None, "c")` and `("a", "b", "c")` both map to the key
`"a:b:c"`, so an object stored under the first triple is returned by a
lookup under the second. -/
theorem object_cache_key_collision {α : Type} (cache : List (String × α)) (obj : α) :
    ObjectCacheEngine.generate_key "a:b" Option.none "c" = "a:b:c"
    ∧ ObjectCacheEngine.generate_key "a" (some "b") "c" = "a:b:c"
    ∧ ObjectCacheEngine.get "a" (some "b") "c"
        (ObjectCacheEngine.set "a:b" Option.none "c" obj cache) = some obj := by
  refine ⟨rfl, rfl, ?_⟩
  simp only [ObjectCacheEngine.get, ObjectCacheEngine.set]
  rw [show ObjectCacheEngine.generate_key "a" (some "b") "c" = "a:b:c" from rfl,
      show ObjectCacheEngine.generate_key "a:b" Option.none "c" = "a:b:c" from rfl]
  exact Assoc.find_insert_self _ _ _
